import Mathlib

/-!
Verification of the Command interaction synthesizer
(`src/packages/ariakit-react-core/src/command/command.tsx`).

The component intercepts keyboard events on an interactive element and
decides whether to let the browser's native activation proceed, or to
suppress it and synthesize a click at the correct time.  The embedding
below translates the two handlers (`onKeyDown`, `onKeyUp`), the
`isNativeClick` classifier and the props merge of `useCommand` into pure
Lean functions over an explicit per-instance state.  Effects (calling the
user handler, `preventDefault`, `setActive`, scheduling of a synthesized
click) are recorded as an ordered list of actions, so that scheduling —
which in the source is always asynchronous (`queueMicrotask` or
`queueBeforeEvent`) — is visible as data rather than as an immediate call.

Collaborators imported from `@ariakit/core` (not part of this repository's
sources) are modelled from the spec as abstract observations carried on the
element/event records: `isButton` (button-like control), `isTextField`,
`isSelfTarget`, `disabledFromProps`, `useMetadataProps` (the
duplicate-registration marker), `isFirefox`, `fireClickEvent` and
`queueBeforeEvent`.
-/

/-- Modelled from the spec: the target DOM element as the external
predicates observe it.  `buttonLike` is the result of the out-of-scope
`isButton` capability check (spec: "button-like control"); `textField` is
the result of `isTextField`; `contentEditable` mirrors the DOM property
read by the handler. -/
structure DomElement where
  tagName : String
  buttonLike : Bool
  textField : Bool
  contentEditable : Bool
deriving DecidableEq, Repr

/-- A keyboard event as the handlers observe it.  `defaultPrevented` is the
value of the flag at the point the command handler inspects it, i.e. after
the user-supplied handler has run; `selfTarget` is the result of the
out-of-scope `isSelfTarget` check (modelled from the spec: the event
originated from the element itself, not a descendant). -/
structure KeyEvent where
  key : String
  isTrusted : Bool
  defaultPrevented : Bool
  selfTarget : Bool
  shiftKey : Bool
  ctrlKey : Bool
  altKey : Bool
  metaKey : Bool
deriving DecidableEq, Repr

/-- Per-instance configuration: the two interaction flags (props
`clickOnEnter`/`clickOnSpace`, default true), the result of
`disabledFromProps`, the duplicate-registration marker produced by
`useMetadataProps`, and the result of the `isFirefox` platform check
(the latter three modelled from the spec: their implementations live
outside this repository's sources). -/
structure CmdConfig where
  clickOnEnter : Bool
  clickOnSpace : Bool
  disabled : Bool
  isDuplicate : Bool
  firefox : Bool
deriving DecidableEq, Repr

/-- Per-instance mutable state: `activeRef` is the Pending-Activation
Marker (a ref, not causing re-render); `active` is the Active-State Flag
(React state backing the `data-active` attribute). -/
structure CmdState where
  activeRef : Bool
  active : Bool
deriving DecidableEq, Repr

/-- How a synthesized click is deferred: `queueBeforeEvent(element,
"keyup", click)` on Firefox, `queueMicrotask(click)` elsewhere. -/
inductive ScheduleKind
  | beforeKeyup
  | microtask
deriving DecidableEq, Repr

/-- The event-init object passed to `fireClickEvent`: in the source it is
the destructuring `const { view, ...eventInit } = event`, i.e. the keyboard
event's metadata with the `view` reference removed.  We record the four
modifier flags (the metadata the spec names) and whether a `view` field is
present. -/
structure EventInit where
  shiftKey : Bool
  ctrlKey : Bool
  altKey : Bool
  metaKey : Bool
  hasView : Bool
deriving DecidableEq, Repr

/-- The `{ view, ...eventInit }` destructuring applied to a keyboard
event: all modifier metadata is copied, the `view` field is dropped. -/
def eventInitOf (event : KeyEvent) : EventInit :=
  { shiftKey := event.shiftKey
    ctrlKey := event.ctrlKey
    altKey := event.altKey
    metaKey := event.metaKey
    hasView := false }

/-- Observable actions a handler performs, in order.  `scheduleClick`
records that a synthesized click (via `fireClickEvent`, modelled from the
spec) was queued to fire asynchronously with the given deferral kind and
event init — not dispatched synchronously within the handler. -/
inductive Eff
  | callUserKeyDown
  | callUserKeyUp
  | preventDefault
  | setActive (value : Bool)
  | scheduleClick (sched : ScheduleKind) (init : EventInit)
deriving DecidableEq, Repr

/-- Result of running a handler: the ordered action trace and the
per-instance state afterwards. -/
structure HandlerResult where
  actions : List Eff
  state : CmdState
deriving DecidableEq, Repr

/-- The optional user-supplied handler call (`onKeyDownProp?.(event)` /
`onKeyUpProp?.(event)`): one action when a user handler is present,
nothing otherwise. -/
def userEff (hasUser : Bool) (a : Eff) : List Eff :=
  if hasUser then [a] else []

/-- Translation of `isNativeClick` (command.tsx lines 21-41): a trusted
event natively clicks on Enter for button-like controls, `<summary>` and
`<a>`, and on Space for button-like controls, `<summary>`, `<input>` and
`<select>`; untrusted events and other keys never natively click.  Pure
function, no side effects. -/
def isNativeClick (element : DomElement) (event : KeyEvent) : Bool :=
  if !event.isTrusted then false
  else if event.key = "Enter" then
    element.buttonLike || decide (element.tagName = "SUMMARY")
      || decide (element.tagName = "A")
  else if event.key = " " then
    element.buttonLike || decide (element.tagName = "SUMMARY")
      || decide (element.tagName = "INPUT") || decide (element.tagName = "SELECT")
  else false

/-- Translation of the `onKeyDown` handler (command.tsx lines 73-120).
The user handler runs first, unconditionally; `event.defaultPrevented` is
read after it.  The veto chain then short-circuits in source order:
defaultPrevented, isDuplicate, disabled, not self-target, text field,
content-editable.  Enter/Space with the corresponding flag disabled is
prevented without synthesis.  A non-native Enter prevents default and
queues one click — before the next keyup on Firefox, as a microtask
elsewhere.  Space sets the Pending-Activation Marker and, when
non-native, prevents default and sets the Active-State Flag. -/
def runKeyDown (cfg : CmdConfig) (element : DomElement) (hasUser : Bool)
    (event : KeyEvent) (s : CmdState) : HandlerResult :=
  let pre := userEff hasUser Eff.callUserKeyDown
  if event.defaultPrevented then ⟨pre, s⟩
  else if cfg.isDuplicate then ⟨pre, s⟩
  else if cfg.disabled then ⟨pre, s⟩
  else if !event.selfTarget then ⟨pre, s⟩
  else if element.textField then ⟨pre, s⟩
  else if element.contentEditable then ⟨pre, s⟩
  else
    let isEnter := cfg.clickOnEnter && decide (event.key = "Enter")
    let isSpace := cfg.clickOnSpace && decide (event.key = " ")
    let shouldPreventEnter := decide (event.key = "Enter") && !cfg.clickOnEnter
    let shouldPreventSpace := decide (event.key = " ") && !cfg.clickOnSpace
    if shouldPreventEnter || shouldPreventSpace then
      ⟨pre ++ [Eff.preventDefault], s⟩
    else if isEnter || isSpace then
      let nativeClick := isNativeClick element event
      if isEnter then
        if !nativeClick then
          let sched := if cfg.firefox then ScheduleKind.beforeKeyup
                       else ScheduleKind.microtask
          ⟨pre ++ [Eff.preventDefault, Eff.scheduleClick sched (eventInitOf event)], s⟩
        else ⟨pre, s⟩
      else
        if !nativeClick then
          ⟨pre ++ [Eff.preventDefault, Eff.setActive true],
            { s with activeRef := true, active := true }⟩
        else ⟨pre, { s with activeRef := true }⟩
    else ⟨pre, s⟩

/-- Translation of the `onKeyUp` handler (command.tsx lines 124-144).
The user handler runs first; the veto chain is: defaultPrevented,
isDuplicate, disabled, metaKey.  When the Pending-Activation Marker is set
and the key is Space (with `clickOnSpace`), the marker is cleared; if the
keyup does not natively click, default is prevented, the Active-State Flag
is reset and one click is queued as a microtask. -/
def runKeyUp (cfg : CmdConfig) (element : DomElement) (hasUser : Bool)
    (event : KeyEvent) (s : CmdState) : HandlerResult :=
  let pre := userEff hasUser Eff.callUserKeyUp
  if event.defaultPrevented then ⟨pre, s⟩
  else if cfg.isDuplicate then ⟨pre, s⟩
  else if cfg.disabled then ⟨pre, s⟩
  else if event.metaKey then ⟨pre, s⟩
  else
    let isSpace := cfg.clickOnSpace && decide (event.key = " ")
    if s.activeRef && isSpace then
      if !isNativeClick element event then
        ⟨pre ++ [Eff.preventDefault, Eff.setActive false,
            Eff.scheduleClick ScheduleKind.microtask (eventInitOf event)],
          { s with activeRef := false, active := false }⟩
      else ⟨pre, { s with activeRef := false }⟩
    else ⟨pre, s⟩

/-- Projection of an action to the synthesized click it schedules, if
any. -/
def Eff.clickOf : Eff → Option (ScheduleKind × EventInit)
  | Eff.scheduleClick k i => some (k, i)
  | _ => none

/-- The synthesized clicks scheduled by a handler run, in order. -/
def clicksOf (r : HandlerResult) : List (ScheduleKind × EventInit) :=
  r.actions.filterMap Eff.clickOf

/-- One physical key-press cycle on one element instance: the keydown
handler runs on the down event, then the keyup handler runs on the up
event against the updated state.  The traces are concatenated in order. -/
def runCycle (cfg : CmdConfig) (element : DomElement) (hasUser : Bool)
    (down up : KeyEvent) (s : CmdState) : HandlerResult :=
  let r1 := runKeyDown cfg element hasUser down s
  let r2 := runKeyUp cfg element hasUser up r1.state
  ⟨r1.actions ++ r2.actions, r2.state⟩

/-- The attribute-bearing part of the props object merged by `useCommand`
(command.tsx lines 146-154): `data-active` is `active || undefined`
(present with value true, or entirely absent, never false) and `type` is
`"button"` when the mounted element was confirmed a native button,
`undefined` otherwise.  The inbound props contract carries no
`data-active`/`type` keys, so neither is overridden by the spread. -/
structure CommandProps where
  dataActive : Option Bool
  type : Option String
deriving DecidableEq, Repr

/-- The props computed by `useCommand` from the Active-State Flag and the
Native-Button Flag. -/
def commandProps (active : Bool) (isNativeButton : Bool) : CommandProps :=
  { dataActive := if active then some true else none
    type := if isNativeButton then some "button" else none }

/-- Modelled from the spec: the Native-Button Flag is computed once after
mount by inspecting the element with the out-of-scope `isButton`
predicate (command.tsx lines 61-64). -/
def isNativeButtonOf (element : DomElement) : Bool :=
  element.buttonLike

/-- Sample non-native element: a plain `<div>`. -/
def divElement : DomElement :=
  { tagName := "DIV", buttonLike := false, textField := false
    contentEditable := false }

/-- Sample native element: a `<button>`. -/
def buttonElement : DomElement :=
  { tagName := "BUTTON", buttonLike := true, textField := false
    contentEditable := false }

/-- Default configuration: both interaction flags on, not disabled, not a
duplicate, not Firefox. -/
def defaultConfig : CmdConfig :=
  { clickOnEnter := true, clickOnSpace := true, disabled := false
    isDuplicate := false, firefox := false }

/-- A trusted, unvetoed keydown/keyup event with the given key and no
modifiers. -/
def plainEvent (key : String) : KeyEvent :=
  { key := key, isTrusted := true, defaultPrevented := false
    selfTarget := true, shiftKey := false, ctrlKey := false
    altKey := false, metaKey := false }


/-- C1: for every trusted Enter keydown that does not natively click, with
`clickOnEnter` true and no keydown veto applying, the handler prevents
default and schedules exactly one synthesized click to fire asynchronously
— queued to run just before the next keyup on the element on Firefox, and
as a microtask on every other engine. -/
theorem c1_enter_keydown_schedules_one_async_click
    (cfg : CmdConfig) (element : DomElement) (hasUser : Bool)
    (event : KeyEvent) (s : CmdState)
    (_htrusted : event.isTrusted = true)
    (hkey : event.key = "Enter")
    (henter : cfg.clickOnEnter = true)
    (hnative : isNativeClick element event = false)
    (hprev : event.defaultPrevented = false)
    (hdup : cfg.isDuplicate = false)
    (hdis : cfg.disabled = false)
    (hself : event.selfTarget = true)
    (htf : element.textField = false)
    (hce : element.contentEditable = false) :
    runKeyDown cfg element hasUser event s =
      ⟨userEff hasUser Eff.callUserKeyDown ++
        [Eff.preventDefault,
         Eff.scheduleClick
           (if cfg.firefox then ScheduleKind.beforeKeyup else ScheduleKind.microtask)
           (eventInitOf event)], s⟩ ∧
    clicksOf (runKeyDown cfg element hasUser event s) =
      [((if cfg.firefox then ScheduleKind.beforeKeyup else ScheduleKind.microtask),
        eventInitOf event)] := by
  have h1 : runKeyDown cfg element hasUser event s =
      ⟨userEff hasUser Eff.callUserKeyDown ++
        [Eff.preventDefault,
         Eff.scheduleClick
           (if cfg.firefox then ScheduleKind.beforeKeyup else ScheduleKind.microtask)
           (eventInitOf event)], s⟩ := by
    simp [runKeyDown, hkey, henter, hnative, hprev, hdup, hdis, hself, htf, hce]
  refine ⟨h1, ?_⟩
  rw [h1]
  cases hasUser <;> simp [clicksOf, userEff, Eff.clickOf]

/-- Witness for C1: a trusted Enter keydown on a plain div with default
configuration. -/
theorem c1_witness :
    runKeyDown defaultConfig divElement false (plainEvent "Enter") ⟨false, false⟩ =
      ⟨userEff false Eff.callUserKeyDown ++
        [Eff.preventDefault,
         Eff.scheduleClick
           (if defaultConfig.firefox then ScheduleKind.beforeKeyup
            else ScheduleKind.microtask)
           (eventInitOf (plainEvent "Enter"))], ⟨false, false⟩⟩ ∧
    clicksOf (runKeyDown defaultConfig divElement false (plainEvent "Enter")
        ⟨false, false⟩) =
      [((if defaultConfig.firefox then ScheduleKind.beforeKeyup
         else ScheduleKind.microtask), eventInitOf (plainEvent "Enter"))] :=
  c1_enter_keydown_schedules_one_async_click defaultConfig divElement false
    (plainEvent "Enter") ⟨false, false⟩ (by decide) (by decide) (by decide)
    (by decide) (by decide) (by decide) (by decide) (by decide) (by decide)
    (by decide)

/-- C3: the native-click classifier returns true exactly when the event is
trusted and either the key is Enter with a button-like, `<summary>` or
`<a>` target, or the key is Space with a button-like, `<summary>`,
`<input>` or `<select>` target; untrusted events and other keys classify
as non-native.  The classifier is a pure function of the element and the
event, so it has no side effects. -/
theorem c3_native_click_classifier (element : DomElement) (event : KeyEvent) :
    isNativeClick element event = true ↔
      event.isTrusted = true ∧
        ((event.key = "Enter" ∧
            (element.buttonLike = true ∨ element.tagName = "SUMMARY" ∨
              element.tagName = "A")) ∨
          (event.key = " " ∧
            (element.buttonLike = true ∨ element.tagName = "SUMMARY" ∨
              element.tagName = "INPUT" ∨ element.tagName = "SELECT"))) := by
  unfold isNativeClick
  split_ifs with h1 h2 h3 <;> simp_all <;> tauto

/-- C2: on a non-native element with `clickOnSpace` and no veto, Space
keydown sets the Pending-Activation Marker, prevents default, sets the
Active-State Flag and schedules no click; the matching Space keyup clears
the marker, prevents default, resets the flag and schedules exactly one
synthesized click as a microtask; on a natively-clicking element the
keydown still sets the marker but performs no preventDefault and no
synthesis. -/
theorem c2_space_keydown_keyup_protocol :
    (∀ (cfg : CmdConfig) (element : DomElement) (hasUser : Bool)
        (event : KeyEvent) (s : CmdState),
      cfg.clickOnSpace = true → event.key = " " →
      isNativeClick element event = false →
      event.defaultPrevented = false → cfg.isDuplicate = false →
      cfg.disabled = false → event.selfTarget = true →
      element.textField = false → element.contentEditable = false →
      runKeyDown cfg element hasUser event s =
        ⟨userEff hasUser Eff.callUserKeyDown ++
          [Eff.preventDefault, Eff.setActive true],
          { s with activeRef := true, active := true }⟩) ∧
    (∀ (cfg : CmdConfig) (element : DomElement) (hasUser : Bool)
        (event : KeyEvent) (s : CmdState),
      cfg.clickOnSpace = true → event.key = " " →
      isNativeClick element event = false →
      event.defaultPrevented = false → cfg.isDuplicate = false →
      cfg.disabled = false → event.metaKey = false →
      s.activeRef = true →
      runKeyUp cfg element hasUser event s =
        ⟨userEff hasUser Eff.callUserKeyUp ++
          [Eff.preventDefault, Eff.setActive false,
           Eff.scheduleClick ScheduleKind.microtask (eventInitOf event)],
          ⟨false, false⟩⟩ ∧
      clicksOf (runKeyUp cfg element hasUser event s) =
        [(ScheduleKind.microtask, eventInitOf event)]) ∧
    (∀ (cfg : CmdConfig) (element : DomElement) (hasUser : Bool)
        (event : KeyEvent) (s : CmdState),
      cfg.clickOnSpace = true → event.key = " " →
      isNativeClick element event = true →
      event.defaultPrevented = false → cfg.isDuplicate = false →
      cfg.disabled = false → event.selfTarget = true →
      element.textField = false → element.contentEditable = false →
      runKeyDown cfg element hasUser event s =
        ⟨userEff hasUser Eff.callUserKeyDown, { s with activeRef := true }⟩) := by
  refine ⟨?_, ?_, ?_⟩
  · intro cfg element hasUser event s hspace hkey hnative hprev hdup hdis hself htf hce
    simp [runKeyDown, hspace, hkey, hnative, hprev, hdup, hdis, hself, htf, hce]
  · intro cfg element hasUser event s hspace hkey hnative hprev hdup hdis hmeta href
    have h1 : runKeyUp cfg element hasUser event s =
        ⟨userEff hasUser Eff.callUserKeyUp ++
          [Eff.preventDefault, Eff.setActive false,
           Eff.scheduleClick ScheduleKind.microtask (eventInitOf event)],
          ⟨false, false⟩⟩ := by
      simp [runKeyUp, hspace, hkey, hnative, hprev, hdup, hdis, hmeta, href]
    refine ⟨h1, ?_⟩
    rw [h1]
    cases hasUser <;> simp [clicksOf, userEff, Eff.clickOf]
  · intro cfg element hasUser event s hspace hkey hnative hprev hdup hdis hself htf hce
    simp [runKeyDown, hspace, hkey, hnative, hprev, hdup, hdis, hself, htf, hce]

/-- Witness for C2: Space keydown/keyup on a plain div, and Space keydown
on a native button, with default configuration. -/
theorem c2_witness :
    (runKeyDown defaultConfig divElement false (plainEvent " ") ⟨false, false⟩ =
      ⟨userEff false Eff.callUserKeyDown ++
        [Eff.preventDefault, Eff.setActive true],
        { CmdState.mk false false with activeRef := true, active := true }⟩) ∧
    (runKeyUp defaultConfig divElement false (plainEvent " ") ⟨true, true⟩ =
      ⟨userEff false Eff.callUserKeyUp ++
        [Eff.preventDefault, Eff.setActive false,
         Eff.scheduleClick ScheduleKind.microtask (eventInitOf (plainEvent " "))],
        ⟨false, false⟩⟩ ∧
      clicksOf (runKeyUp defaultConfig divElement false (plainEvent " ")
          ⟨true, true⟩) =
        [(ScheduleKind.microtask, eventInitOf (plainEvent " "))]) ∧
    (runKeyDown defaultConfig buttonElement false (plainEvent " ") ⟨false, false⟩ =
      ⟨userEff false Eff.callUserKeyDown,
        { CmdState.mk false false with activeRef := true }⟩) :=
  ⟨c2_space_keydown_keyup_protocol.1 defaultConfig divElement false
      (plainEvent " ") ⟨false, false⟩ (by decide) (by decide) (by decide)
      (by decide) (by decide) (by decide) (by decide) (by decide) (by decide),
   c2_space_keydown_keyup_protocol.2.1 defaultConfig divElement false
      (plainEvent " ") ⟨true, true⟩ (by decide) (by decide) (by decide)
      (by decide) (by decide) (by decide) (by decide) (by decide),
   c2_space_keydown_keyup_protocol.2.2 defaultConfig buttonElement false
      (plainEvent " ") ⟨false, false⟩ (by decide) (by decide) (by decide)
      (by decide) (by decide) (by decide) (by decide) (by decide) (by decide)⟩


/-- Helper: any keydown veto (defaultPrevented, duplicate, disabled, not
self-target, text field, content-editable) makes the keydown handler
return right after the user-handler call, leaving the state untouched. -/
theorem keydown_veto_no_action (cfg : CmdConfig) (element : DomElement)
    (hasUser : Bool) (event : KeyEvent) (s : CmdState)
    (hveto : event.defaultPrevented = true ∨ cfg.isDuplicate = true ∨
      cfg.disabled = true ∨ event.selfTarget = false ∨
      element.textField = true ∨ element.contentEditable = true) :
    runKeyDown cfg element hasUser event s =
      ⟨userEff hasUser Eff.callUserKeyDown, s⟩ := by
  simp only [runKeyDown]
  rcases hveto with h | h | h | h | h | h
  · rw [if_pos h]
  · rw [if_pos h, ite_self]
  · rw [if_pos h, ite_self, ite_self]
  · rw [if_pos (show (!event.selfTarget) = true by simp [h]), ite_self,
      ite_self, ite_self]
  · rw [if_pos h, ite_self, ite_self, ite_self, ite_self]
  · rw [if_pos h, ite_self, ite_self, ite_self, ite_self, ite_self]

/-- Helper: a keydown whose key is neither Enter nor Space performs
nothing beyond the user-handler call, whatever the rest of the input. -/
theorem keydown_other_key_no_action (cfg : CmdConfig) (element : DomElement)
    (hasUser : Bool) (event : KeyEvent) (s : CmdState)
    (hk1 : event.key ≠ "Enter") (hk2 : event.key ≠ " ") :
    runKeyDown cfg element hasUser event s =
      ⟨userEff hasUser Eff.callUserKeyDown, s⟩ := by
  have d1 : decide (event.key = "Enter") = false := by simp [hk1]
  have d2 : decide (event.key = " ") = false := by simp [hk2]
  simp only [runKeyDown, d1, d2, Bool.false_and, Bool.and_false, Bool.or_self,
    Bool.false_eq_true, if_false, ite_self, ite_false]

/-- Helper: an unvetoed Enter/Space keydown whose config flag disables the
interaction prevents default and does nothing else. -/
theorem keydown_disabled_flag_prevents (cfg : CmdConfig) (element : DomElement)
    (hasUser : Bool) (event : KeyEvent) (s : CmdState)
    (hprev : event.defaultPrevented = false) (hdup : cfg.isDuplicate = false)
    (hdis : cfg.disabled = false) (hself : event.selfTarget = true)
    (htf : element.textField = false) (hce : element.contentEditable = false)
    (hkey : (event.key = "Enter" ∧ cfg.clickOnEnter = false) ∨
      (event.key = " " ∧ cfg.clickOnSpace = false)) :
    runKeyDown cfg element hasUser event s =
      ⟨userEff hasUser Eff.callUserKeyDown ++ [Eff.preventDefault], s⟩ := by
  rcases hkey with ⟨hk, hc⟩ | ⟨hk, hc⟩ <;>
    simp [runKeyDown, hk, hc, hprev, hdup, hdis, hself, htf, hce]

/-- Helper: an unvetoed native-clicking Enter keydown (with
`clickOnEnter`) lets the browser act: nothing beyond the user-handler
call. -/
theorem keydown_enter_native_no_action (cfg : CmdConfig) (element : DomElement)
    (hasUser : Bool) (event : KeyEvent) (s : CmdState)
    (hkey : event.key = "Enter") (henter : cfg.clickOnEnter = true)
    (hnative : isNativeClick element event = true)
    (hprev : event.defaultPrevented = false) (hdup : cfg.isDuplicate = false)
    (hdis : cfg.disabled = false) (hself : event.selfTarget = true)
    (htf : element.textField = false) (hce : element.contentEditable = false) :
    runKeyDown cfg element hasUser event s =
      ⟨userEff hasUser Eff.callUserKeyDown, s⟩ := by
  simp [runKeyDown, hkey, henter, hnative, hprev, hdup, hdis, hself, htf, hce]

/-- Helper: an unvetoed non-native Space keydown (with `clickOnSpace`)
sets the marker, prevents default and sets the Active-State Flag. -/
theorem keydown_space_nonnative (cfg : CmdConfig) (element : DomElement)
    (hasUser : Bool) (event : KeyEvent) (s : CmdState)
    (hkey : event.key = " ") (hspace : cfg.clickOnSpace = true)
    (hnative : isNativeClick element event = false)
    (hprev : event.defaultPrevented = false) (hdup : cfg.isDuplicate = false)
    (hdis : cfg.disabled = false) (hself : event.selfTarget = true)
    (htf : element.textField = false) (hce : element.contentEditable = false) :
    runKeyDown cfg element hasUser event s =
      ⟨userEff hasUser Eff.callUserKeyDown ++
        [Eff.preventDefault, Eff.setActive true],
        { s with activeRef := true, active := true }⟩ := by
  simp [runKeyDown, hkey, hspace, hnative, hprev, hdup, hdis, hself, htf, hce]

/-- Helper: an unvetoed native Space keydown sets only the marker. -/
theorem keydown_space_native (cfg : CmdConfig) (element : DomElement)
    (hasUser : Bool) (event : KeyEvent) (s : CmdState)
    (hkey : event.key = " ") (hspace : cfg.clickOnSpace = true)
    (hnative : isNativeClick element event = true)
    (hprev : event.defaultPrevented = false) (hdup : cfg.isDuplicate = false)
    (hdis : cfg.disabled = false) (hself : event.selfTarget = true)
    (htf : element.textField = false) (hce : element.contentEditable = false) :
    runKeyDown cfg element hasUser event s =
      ⟨userEff hasUser Eff.callUserKeyDown, { s with activeRef := true }⟩ := by
  simp [runKeyDown, hkey, hspace, hnative, hprev, hdup, hdis, hself, htf, hce]

/-- Helper: an unvetoed non-native Enter keydown (with `clickOnEnter`)
prevents default and schedules exactly one click. -/
theorem keydown_enter_nonnative (cfg : CmdConfig) (element : DomElement)
    (hasUser : Bool) (event : KeyEvent) (s : CmdState)
    (hkey : event.key = "Enter") (henter : cfg.clickOnEnter = true)
    (hnative : isNativeClick element event = false)
    (hprev : event.defaultPrevented = false) (hdup : cfg.isDuplicate = false)
    (hdis : cfg.disabled = false) (hself : event.selfTarget = true)
    (htf : element.textField = false) (hce : element.contentEditable = false) :
    runKeyDown cfg element hasUser event s =
      ⟨userEff hasUser Eff.callUserKeyDown ++
        [Eff.preventDefault,
         Eff.scheduleClick
           (if cfg.firefox then ScheduleKind.beforeKeyup else ScheduleKind.microtask)
           (eventInitOf event)], s⟩ := by
  simp [runKeyDown, hkey, henter, hnative, hprev, hdup, hdis, hself, htf, hce]

/-- Helper: any keyup veto (defaultPrevented, duplicate, disabled,
metaKey) makes the keyup handler return right after the user-handler
call, leaving the state untouched. -/
theorem keyup_veto_no_action (cfg : CmdConfig) (element : DomElement)
    (hasUser : Bool) (event : KeyEvent) (s : CmdState)
    (hveto : event.defaultPrevented = true ∨ cfg.isDuplicate = true ∨
      cfg.disabled = true ∨ event.metaKey = true) :
    runKeyUp cfg element hasUser event s =
      ⟨userEff hasUser Eff.callUserKeyUp, s⟩ := by
  simp only [runKeyUp]
  rcases hveto with h | h | h | h
  · rw [if_pos h]
  · rw [if_pos h, ite_self]
  · rw [if_pos h, ite_self, ite_self]
  · rw [if_pos h, ite_self, ite_self, ite_self]

/-- Helper: when no Space activation is pending (marker unset, flag
disabled, or another key), the keyup handler performs nothing beyond the
user-handler call. -/
theorem keyup_idle_no_action (cfg : CmdConfig) (element : DomElement)
    (hasUser : Bool) (event : KeyEvent) (s : CmdState)
    (hidle : s.activeRef = false ∨ cfg.clickOnSpace = false ∨
      event.key ≠ " ") :
    runKeyUp cfg element hasUser event s =
      ⟨userEff hasUser Eff.callUserKeyUp, s⟩ := by
  have d : (s.activeRef && (cfg.clickOnSpace && decide (event.key = " "))) =
      false := by
    rcases hidle with h | h | h <;> simp [h]
  simp only [runKeyUp, d, Bool.false_eq_true, if_false, ite_self, ite_false]

/-- Helper: an unvetoed Space keyup with the marker set, on a non-native
target, clears the marker, prevents default, resets the flag and queues
one microtask click. -/
theorem keyup_space_fires (cfg : CmdConfig) (element : DomElement)
    (hasUser : Bool) (event : KeyEvent) (s : CmdState)
    (href : s.activeRef = true) (hspace : cfg.clickOnSpace = true)
    (hkey : event.key = " ") (hnative : isNativeClick element event = false)
    (hprev : event.defaultPrevented = false) (hdup : cfg.isDuplicate = false)
    (hdis : cfg.disabled = false) (hmeta : event.metaKey = false) :
    runKeyUp cfg element hasUser event s =
      ⟨userEff hasUser Eff.callUserKeyUp ++
        [Eff.preventDefault, Eff.setActive false,
         Eff.scheduleClick ScheduleKind.microtask (eventInitOf event)],
        ⟨false, false⟩⟩ := by
  simp [runKeyUp, href, hspace, hkey, hnative, hprev, hdup, hdis, hmeta]

/-- Helper: an unvetoed Space keyup with the marker set, on a
natively-clicking target, only clears the marker. -/
theorem keyup_space_native (cfg : CmdConfig) (element : DomElement)
    (hasUser : Bool) (event : KeyEvent) (s : CmdState)
    (href : s.activeRef = true) (hspace : cfg.clickOnSpace = true)
    (hkey : event.key = " ") (hnative : isNativeClick element event = true)
    (hprev : event.defaultPrevented = false) (hdup : cfg.isDuplicate = false)
    (hdis : cfg.disabled = false) (hmeta : event.metaKey = false) :
    runKeyUp cfg element hasUser event s =
      ⟨userEff hasUser Eff.callUserKeyUp, { s with activeRef := false }⟩ := by
  simp [runKeyUp, href, hspace, hkey, hnative, hprev, hdup, hdis, hmeta]

/-- Helper: complete case enumeration of the keydown handler: it either
does nothing beyond the user call, prevents default only, schedules the
single Enter click, performs the Space press, or marks a native Space
press. -/
theorem keydown_cases (cfg : CmdConfig) (element : DomElement)
    (hasUser : Bool) (event : KeyEvent) (s : CmdState) :
    runKeyDown cfg element hasUser event s =
        ⟨userEff hasUser Eff.callUserKeyDown, s⟩ ∨
    runKeyDown cfg element hasUser event s =
        ⟨userEff hasUser Eff.callUserKeyDown ++ [Eff.preventDefault], s⟩ ∨
    (event.key = "Enter" ∧
      runKeyDown cfg element hasUser event s =
        ⟨userEff hasUser Eff.callUserKeyDown ++
          [Eff.preventDefault,
           Eff.scheduleClick
             (if cfg.firefox then ScheduleKind.beforeKeyup else ScheduleKind.microtask)
             (eventInitOf event)], s⟩) ∨
    (event.key = " " ∧
      runKeyDown cfg element hasUser event s =
        ⟨userEff hasUser Eff.callUserKeyDown ++
          [Eff.preventDefault, Eff.setActive true],
          { s with activeRef := true, active := true }⟩) ∨
    (event.key = " " ∧
      runKeyDown cfg element hasUser event s =
        ⟨userEff hasUser Eff.callUserKeyDown, { s with activeRef := true }⟩) := by
  by_cases hv : event.defaultPrevented = true ∨ cfg.isDuplicate = true ∨
      cfg.disabled = true ∨ event.selfTarget = false ∨
      element.textField = true ∨ element.contentEditable = true
  · exact Or.inl (keydown_veto_no_action cfg element hasUser event s hv)
  push_neg at hv
  obtain ⟨h1, h2, h3, h4, h5, h6⟩ := hv
  simp only [ne_eq, Bool.not_eq_true] at h1 h2 h3 h5 h6
  simp only [ne_eq, Bool.not_eq_false] at h4
  by_cases hkE : event.key = "Enter"
  · by_cases hcE : cfg.clickOnEnter = true
    · by_cases hn : isNativeClick element event = true
      · exact Or.inl (keydown_enter_native_no_action cfg element hasUser event s
          hkE hcE hn h1 h2 h3 h4 h5 h6)
      · simp only [ne_eq, Bool.not_eq_true] at hn
        exact Or.inr (Or.inr (Or.inl ⟨hkE,
          keydown_enter_nonnative cfg element hasUser event s
            hkE hcE hn h1 h2 h3 h4 h5 h6⟩))
    · simp only [ne_eq, Bool.not_eq_true] at hcE
      exact Or.inr (Or.inl (keydown_disabled_flag_prevents cfg element hasUser
        event s h1 h2 h3 h4 h5 h6 (Or.inl ⟨hkE, hcE⟩)))
  · by_cases hkS : event.key = " "
    · by_cases hcS : cfg.clickOnSpace = true
      · by_cases hn : isNativeClick element event = true
        · exact Or.inr (Or.inr (Or.inr (Or.inr (⟨hkS,
            keydown_space_native cfg element hasUser event s
              hkS hcS hn h1 h2 h3 h4 h5 h6⟩))))
        · simp only [ne_eq, Bool.not_eq_true] at hn
          exact Or.inr (Or.inr (Or.inr (Or.inl (⟨hkS,
            keydown_space_nonnative cfg element hasUser event s
              hkS hcS hn h1 h2 h3 h4 h5 h6⟩))))
      · simp only [ne_eq, Bool.not_eq_true] at hcS
        exact Or.inr (Or.inl (keydown_disabled_flag_prevents cfg element hasUser
          event s h1 h2 h3 h4 h5 h6 (Or.inr ⟨hkS, hcS⟩)))
    · exact Or.inl (keydown_other_key_no_action cfg element hasUser event s
        hkE hkS)

/-- Helper: complete case enumeration of the keyup handler: it either does
nothing beyond the user call, completes the Space activation with one
microtask click, or merely clears the marker on a native target. -/
theorem keyup_cases (cfg : CmdConfig) (element : DomElement)
    (hasUser : Bool) (event : KeyEvent) (s : CmdState) :
    runKeyUp cfg element hasUser event s =
        ⟨userEff hasUser Eff.callUserKeyUp, s⟩ ∨
    (event.key = " " ∧
      runKeyUp cfg element hasUser event s =
        ⟨userEff hasUser Eff.callUserKeyUp ++
          [Eff.preventDefault, Eff.setActive false,
           Eff.scheduleClick ScheduleKind.microtask (eventInitOf event)],
          ⟨false, false⟩⟩) ∨
    (event.key = " " ∧
      runKeyUp cfg element hasUser event s =
        ⟨userEff hasUser Eff.callUserKeyUp, { s with activeRef := false }⟩) := by
  by_cases hv : event.defaultPrevented = true ∨ cfg.isDuplicate = true ∨
      cfg.disabled = true ∨ event.metaKey = true
  · exact Or.inl (keyup_veto_no_action cfg element hasUser event s hv)
  push_neg at hv
  obtain ⟨h1, h2, h3, h4⟩ := hv
  simp only [ne_eq, Bool.not_eq_true] at h1 h2 h3 h4
  by_cases hidle : s.activeRef = false ∨ cfg.clickOnSpace = false ∨
      event.key ≠ " "
  · exact Or.inl (keyup_idle_no_action cfg element hasUser event s hidle)
  push_neg at hidle
  obtain ⟨g1, g2, g3⟩ := hidle
  simp only [ne_eq, Bool.not_eq_false] at g1 g2
  by_cases hn : isNativeClick element event = true
  · exact Or.inr (Or.inr ⟨g3,
      keyup_space_native cfg element hasUser event s g1 g2 g3 hn h1 h2 h3 h4⟩)
  · simp only [ne_eq, Bool.not_eq_true] at hn
    exact Or.inr (Or.inl ⟨g3,
      keyup_space_fires cfg element hasUser event s g1 g2 g3 hn h1 h2 h3 h4⟩)

/-- Helper: the keydown trace always begins with the user-handler call:
the user-supplied handler runs before any veto is considered. -/
theorem keydown_trace_starts_with_user (cfg : CmdConfig) (element : DomElement)
    (hasUser : Bool) (event : KeyEvent) (s : CmdState) :
    ∃ rest, (runKeyDown cfg element hasUser event s).actions =
      userEff hasUser Eff.callUserKeyDown ++ rest := by
  rcases keydown_cases cfg element hasUser event s with h | h | ⟨-, h⟩ | ⟨-, h⟩ | ⟨-, h⟩
  · exact ⟨[], by rw [h]; simp⟩
  · exact ⟨[Eff.preventDefault], by rw [h]⟩
  · exact ⟨_, by rw [h]⟩
  · exact ⟨_, by rw [h]⟩
  · exact ⟨[], by rw [h]; simp⟩

/-- Helper: the keyup trace always begins with the user-handler call. -/
theorem keyup_trace_starts_with_user (cfg : CmdConfig) (element : DomElement)
    (hasUser : Bool) (event : KeyEvent) (s : CmdState) :
    ∃ rest, (runKeyUp cfg element hasUser event s).actions =
      userEff hasUser Eff.callUserKeyUp ++ rest := by
  rcases keyup_cases cfg element hasUser event s with h | ⟨-, h⟩ | ⟨-, h⟩
  · exact ⟨[], by rw [h]; simp⟩
  · exact ⟨_, by rw [h]⟩
  · exact ⟨[], by rw [h]; simp⟩

/-- Helper: with a user handler present, the first keydown action is the
user-handler call. -/
theorem keydown_first_action_is_user (cfg : CmdConfig) (element : DomElement)
    (event : KeyEvent) (s : CmdState) :
    (runKeyDown cfg element true event s).actions.head? =
      some Eff.callUserKeyDown := by
  obtain ⟨rest, hr⟩ := keydown_trace_starts_with_user cfg element true event s
  rw [hr]
  simp [userEff]

/-- Helper: with a user handler present, the first keyup action is the
user-handler call. -/
theorem keyup_first_action_is_user (cfg : CmdConfig) (element : DomElement)
    (event : KeyEvent) (s : CmdState) :
    (runKeyUp cfg element true event s).actions.head? =
      some Eff.callUserKeyUp := by
  obtain ⟨rest, hr⟩ := keyup_trace_starts_with_user cfg element true event s
  rw [hr]
  simp [userEff]

/-- Helper: a keydown run schedules no click, or the key is Enter and it
schedules exactly the one Enter click. -/
theorem keydown_clicks_cases (cfg : CmdConfig) (element : DomElement)
    (hasUser : Bool) (event : KeyEvent) (s : CmdState) :
    clicksOf (runKeyDown cfg element hasUser event s) = [] ∨
      (event.key = "Enter" ∧
        clicksOf (runKeyDown cfg element hasUser event s) =
          [((if cfg.firefox then ScheduleKind.beforeKeyup else ScheduleKind.microtask),
            eventInitOf event)]) := by
  rcases keydown_cases cfg element hasUser event s with h | h | ⟨hk, h⟩ | ⟨-, h⟩ | ⟨-, h⟩
  · left; rw [clicksOf, h]; cases hasUser <;> simp [userEff, Eff.clickOf]
  · left; rw [clicksOf, h]; cases hasUser <;> simp [userEff, Eff.clickOf]
  · right
    exact ⟨hk, by rw [clicksOf, h]; cases hasUser <;> simp [userEff, Eff.clickOf]⟩
  · left; rw [clicksOf, h]; cases hasUser <;> simp [userEff, Eff.clickOf]
  · left; rw [clicksOf, h]; cases hasUser <;> simp [userEff, Eff.clickOf]

/-- Helper: a keyup run schedules no click, or the key is Space and it
schedules exactly the one microtask click. -/
theorem keyup_clicks_cases (cfg : CmdConfig) (element : DomElement)
    (hasUser : Bool) (event : KeyEvent) (s : CmdState) :
    clicksOf (runKeyUp cfg element hasUser event s) = [] ∨
      (event.key = " " ∧
        clicksOf (runKeyUp cfg element hasUser event s) =
          [(ScheduleKind.microtask, eventInitOf event)]) := by
  rcases keyup_cases cfg element hasUser event s with h | ⟨hk, h⟩ | ⟨-, h⟩
  · left; rw [clicksOf, h]; cases hasUser <;> simp [userEff, Eff.clickOf]
  · right
    exact ⟨hk, by rw [clicksOf, h]; cases hasUser <;> simp [userEff, Eff.clickOf]⟩
  · left; rw [clicksOf, h]; cases hasUser <;> simp [userEff, Eff.clickOf]

/-- Helper: the clicks of a cycle are the keydown clicks followed by the
keyup clicks. -/
theorem cycle_clicks_split (cfg : CmdConfig) (element : DomElement)
    (hasUser : Bool) (down up : KeyEvent) (s : CmdState) :
    clicksOf (runCycle cfg element hasUser down up s) =
      clicksOf (runKeyDown cfg element hasUser down s) ++
        clicksOf (runKeyUp cfg element hasUser up
          (runKeyDown cfg element hasUser down s).state) := by
  simp [runCycle, clicksOf]

/-- C4: for every keydown, the user-supplied handler runs first,
unconditionally — the trace begins with its call even when the instance
is disabled or a duplicate — and the handler then returns without further
action when, in the source's short-circuit order, the default was already
prevented, the instance is a duplicate registration, the element is
disabled, the event did not originate from the element itself, the
element is a text-input-like field, or it is content-editable. -/
theorem c4_keydown_user_first_then_veto_chain :
    (∀ (cfg : CmdConfig) (element : DomElement) (hasUser : Bool)
        (event : KeyEvent) (s : CmdState),
      ∃ rest, (runKeyDown cfg element hasUser event s).actions =
        userEff hasUser Eff.callUserKeyDown ++ rest) ∧
    (∀ (cfg : CmdConfig) (element : DomElement) (hasUser : Bool)
        (event : KeyEvent) (s : CmdState),
      (event.defaultPrevented = true ∨ cfg.isDuplicate = true ∨
        cfg.disabled = true ∨ event.selfTarget = false ∨
        element.textField = true ∨ element.contentEditable = true) →
      runKeyDown cfg element hasUser event s =
        ⟨userEff hasUser Eff.callUserKeyDown, s⟩) :=
  ⟨keydown_trace_starts_with_user, keydown_veto_no_action⟩

/-- Witness for C4: a disabled instance still calls the user handler
first and does nothing further on an Enter keydown. -/
theorem c4_witness :
    (∃ rest,
      (runKeyDown { defaultConfig with disabled := true } divElement true
        (plainEvent "Enter") ⟨false, false⟩).actions =
        userEff true Eff.callUserKeyDown ++ rest) ∧
    runKeyDown { defaultConfig with disabled := true } divElement true
        (plainEvent "Enter") ⟨false, false⟩ =
      ⟨userEff true Eff.callUserKeyDown, ⟨false, false⟩⟩ :=
  ⟨c4_keydown_user_first_then_veto_chain.1 { defaultConfig with disabled := true }
      divElement true (plainEvent "Enter") ⟨false, false⟩,
   c4_keydown_user_first_then_veto_chain.2 { defaultConfig with disabled := true }
      divElement true (plainEvent "Enter") ⟨false, false⟩
      (Or.inr (Or.inr (Or.inl (by decide))))⟩

/-- C5 counterexample: the claim says the keyup handler returns without
action when the element is a text-input-like field, but the source's
keyup veto chain (command.tsx lines 127-130) never inspects the element:
on a text-field element with the Pending-Activation Marker set and no
other veto, a Space keyup still prevents default, resets the flag and
schedules a synthesized click. -/
theorem c5_counterexample :
    runKeyUp defaultConfig
      { tagName := "INPUT", buttonLike := false, textField := true
        contentEditable := false } false
      { plainEvent " " with isTrusted := false } ⟨true, true⟩ =
      ⟨[Eff.preventDefault, Eff.setActive false,
        Eff.scheduleClick ScheduleKind.microtask
          (eventInitOf { plainEvent " " with isTrusted := false })],
        ⟨false, false⟩⟩ := by decide

/-- C5 (amended): the keyup veto chain is only: after the user-supplied
onKeyUp runs, the handler returns without action when the event's default
was prevented, the instance is a duplicate registration, the element is
disabled, or the meta key is held; unlike keydown there is no text-field
or content-editable check. -/
theorem c5_keyup_veto_chain
    (cfg : CmdConfig) (element : DomElement) (hasUser : Bool)
    (event : KeyEvent) (s : CmdState)
    (hveto : event.defaultPrevented = true ∨ cfg.isDuplicate = true ∨
      cfg.disabled = true ∨ event.metaKey = true) :
    runKeyUp cfg element hasUser event s =
      ⟨userEff hasUser Eff.callUserKeyUp, s⟩ :=
  keyup_veto_no_action cfg element hasUser event s hveto

/-- Witness for C5 (amended): a Space keyup with the meta key held does
nothing beyond calling the user handler. -/
theorem c5_witness :
    runKeyUp defaultConfig divElement true
      { plainEvent " " with metaKey := true } ⟨true, true⟩ =
      ⟨userEff true Eff.callUserKeyUp, ⟨true, true⟩⟩ :=
  c5_keyup_veto_chain defaultConfig divElement true
    { plainEvent " " with metaKey := true } ⟨true, true⟩
    (Or.inr (Or.inr (Or.inr (by decide))))

/-- C6: one physical key-press cycle (a keydown followed by the keyup of
the same key) schedules at most one synthesized click; a duplicate
registration never schedules any click; and an unvetoed non-native Enter
press handled by both an acting instance and a duplicate registration of
the same contract yields exactly one click in total, never two. -/
theorem c6_at_most_one_click_per_cycle :
    (∀ (cfg : CmdConfig) (element : DomElement) (hasUser : Bool)
        (down up : KeyEvent) (s : CmdState),
      down.key = up.key →
      (clicksOf (runCycle cfg element hasUser down up s)).length ≤ 1) ∧
    (∀ (cfg : CmdConfig) (element : DomElement) (hasUser : Bool)
        (down up : KeyEvent) (s : CmdState),
      cfg.isDuplicate = true →
      clicksOf (runCycle cfg element hasUser down up s) = []) ∧
    (∀ (cfg dup : CmdConfig) (element : DomElement) (hasUser : Bool)
        (down up : KeyEvent) (s sdup : CmdState),
      down.key = "Enter" → up.key = "Enter" →
      cfg.clickOnEnter = true → isNativeClick element down = false →
      down.defaultPrevented = false → cfg.isDuplicate = false →
      cfg.disabled = false → down.selfTarget = true →
      element.textField = false → element.contentEditable = false →
      dup.isDuplicate = true →
      (clicksOf (runCycle cfg element hasUser down up s)).length +
        (clicksOf (runCycle dup element hasUser down up sdup)).length = 1) := by
  refine ⟨?_, ?_, ?_⟩
  · intro cfg element hasUser down up s hk
    rw [cycle_clicks_split]
    rcases keydown_clicks_cases cfg element hasUser down s with h1 | ⟨hd, h1⟩
    · rw [h1]
      rcases keyup_clicks_cases cfg element hasUser up
          (runKeyDown cfg element hasUser down s).state with h2 | ⟨-, h2⟩ <;>
        rw [h2] <;> simp
    · rw [h1]
      have hu2 : up.key = "Enter" := hk.symm.trans hd
      rcases keyup_clicks_cases cfg element hasUser up
          (runKeyDown cfg element hasUser down s).state with h2 | ⟨hs2, h2⟩
      · rw [h2]; simp
      · rw [hu2] at hs2
        exact absurd hs2 (by decide)
  · intro cfg element hasUser down up s hdup
    rw [cycle_clicks_split, clicksOf, clicksOf,
      keyup_veto_no_action cfg element hasUser up
        (runKeyDown cfg element hasUser down s).state (Or.inr (Or.inl hdup)),
      keydown_veto_no_action cfg element hasUser down s (Or.inr (Or.inl hdup))]
    cases hasUser <;> simp [userEff, Eff.clickOf]
  · intro cfg dup element hasUser down up s sdup hkd hku henter hnative hprev
      hdup0 hdis hself htf hce hdup1
    have hkd1 : clicksOf (runKeyDown cfg element hasUser down s) =
        [((if cfg.firefox then ScheduleKind.beforeKeyup else ScheduleKind.microtask),
          eventInitOf down)] := by
      rw [clicksOf, keydown_enter_nonnative cfg element hasUser down s hkd henter
        hnative hprev hdup0 hdis hself htf hce]
      cases hasUser <;> simp [userEff, Eff.clickOf]
    have hku1 : ∀ t : CmdState,
        clicksOf (runKeyUp cfg element hasUser up t) = [] := by
      intro t
      rcases keyup_clicks_cases cfg element hasUser up t with h | ⟨hs, h⟩
      · exact h
      · rw [hku] at hs
        exact absurd hs (by decide)
    have hkd2 : clicksOf (runKeyDown dup element hasUser down sdup) = [] := by
      rw [clicksOf, keydown_veto_no_action dup element hasUser down sdup
        (Or.inr (Or.inl hdup1))]
      cases hasUser <;> simp [userEff, Eff.clickOf]
    have hku2 : ∀ t : CmdState,
        clicksOf (runKeyUp dup element hasUser up t) = [] := by
      intro t
      rw [clicksOf, keyup_veto_no_action dup element hasUser up t
        (Or.inr (Or.inl hdup1))]
      cases hasUser <;> simp [userEff, Eff.clickOf]
    rw [cycle_clicks_split, cycle_clicks_split, hkd1, hku1, hkd2, hku2]
    simp

/-- Witness for C6: Enter press cycles on a plain div for an acting
instance and a duplicate registration. -/
theorem c6_witness :
    (clicksOf (runCycle defaultConfig divElement false (plainEvent "Enter")
        (plainEvent "Enter") ⟨false, false⟩)).length ≤ 1 ∧
    clicksOf (runCycle { defaultConfig with isDuplicate := true } divElement
        false (plainEvent "Enter") (plainEvent "Enter") ⟨false, false⟩) = [] ∧
    (clicksOf (runCycle defaultConfig divElement false (plainEvent "Enter")
        (plainEvent "Enter") ⟨false, false⟩)).length +
      (clicksOf (runCycle { defaultConfig with isDuplicate := true } divElement
        false (plainEvent "Enter") (plainEvent "Enter") ⟨false, false⟩)).length
      = 1 :=
  ⟨c6_at_most_one_click_per_cycle.1 defaultConfig divElement false
      (plainEvent "Enter") (plainEvent "Enter") ⟨false, false⟩ (by decide),
   c6_at_most_one_click_per_cycle.2.1 { defaultConfig with isDuplicate := true }
      divElement false (plainEvent "Enter") (plainEvent "Enter") ⟨false, false⟩
      (by decide),
   c6_at_most_one_click_per_cycle.2.2 defaultConfig
      { defaultConfig with isDuplicate := true } divElement false
      (plainEvent "Enter") (plainEvent "Enter") ⟨false, false⟩ ⟨false, false⟩
      (by decide) (by decide) (by decide) (by decide) (by decide) (by decide)
      (by decide) (by decide) (by decide) (by decide) (by decide)⟩

/-- C7: every synthesized click scheduled by either handler is built from
the originating keyboard event's metadata with the view reference
removed: it carries the event's shift/ctrl/alt/meta modifier state and
its event init has no view field. -/
theorem c7_click_metadata_matches_event
    (cfg : CmdConfig) (element : DomElement) (hasUser : Bool)
    (event : KeyEvent) (s : CmdState) (k : ScheduleKind) (i : EventInit)
    (hmem : (k, i) ∈ clicksOf (runKeyDown cfg element hasUser event s) ∨
      (k, i) ∈ clicksOf (runKeyUp cfg element hasUser event s)) :
    i = eventInitOf event ∧ i.shiftKey = event.shiftKey ∧
    i.ctrlKey = event.ctrlKey ∧ i.altKey = event.altKey ∧
    i.metaKey = event.metaKey ∧ i.hasView = false := by
  have hi : i = eventInitOf event := by
    rcases hmem with h | h
    · rcases keydown_clicks_cases cfg element hasUser event s with h0 | ⟨-, h0⟩ <;>
        rw [h0] at h <;> simp_all
    · rcases keyup_clicks_cases cfg element hasUser event s with h0 | ⟨-, h0⟩ <;>
        rw [h0] at h <;> simp_all
  subst hi
  simp [eventInitOf]

/-- Witness for C7: the click synthesized for an Enter keydown on a plain
div carries the event's modifier flags and no view field. -/
theorem c7_witness :
    eventInitOf (plainEvent "Enter") = eventInitOf (plainEvent "Enter") ∧
    (eventInitOf (plainEvent "Enter")).shiftKey = (plainEvent "Enter").shiftKey ∧
    (eventInitOf (plainEvent "Enter")).ctrlKey = (plainEvent "Enter").ctrlKey ∧
    (eventInitOf (plainEvent "Enter")).altKey = (plainEvent "Enter").altKey ∧
    (eventInitOf (plainEvent "Enter")).metaKey = (plainEvent "Enter").metaKey ∧
    (eventInitOf (plainEvent "Enter")).hasView = false :=
  c7_click_metadata_matches_event defaultConfig divElement false
    (plainEvent "Enter") ⟨false, false⟩ ScheduleKind.microtask
    (eventInitOf (plainEvent "Enter")) (Or.inl (by decide))

/-- C8: an unvetoed keydown whose key is Enter with `clickOnEnter` false,
or Space with `clickOnSpace` false, prevents default and returns without
scheduling any click. -/
theorem c8_disabled_interaction_prevents_without_click
    (cfg : CmdConfig) (element : DomElement) (hasUser : Bool)
    (event : KeyEvent) (s : CmdState)
    (hprev : event.defaultPrevented = false) (hdup : cfg.isDuplicate = false)
    (hdis : cfg.disabled = false) (hself : event.selfTarget = true)
    (htf : element.textField = false) (hce : element.contentEditable = false)
    (hkey : (event.key = "Enter" ∧ cfg.clickOnEnter = false) ∨
      (event.key = " " ∧ cfg.clickOnSpace = false)) :
    runKeyDown cfg element hasUser event s =
      ⟨userEff hasUser Eff.callUserKeyDown ++ [Eff.preventDefault], s⟩ ∧
    clicksOf (runKeyDown cfg element hasUser event s) = [] := by
  have h := keydown_disabled_flag_prevents cfg element hasUser event s
    hprev hdup hdis hself htf hce hkey
  refine ⟨h, ?_⟩
  rw [clicksOf, h]
  cases hasUser <;> simp [userEff, Eff.clickOf]

/-- Witness for C8: Enter keydown with `clickOnEnter = false` on a plain
div is prevented and produces no click. -/
theorem c8_witness :
    runKeyDown { defaultConfig with clickOnEnter := false } divElement false
        (plainEvent "Enter") ⟨false, false⟩ =
      ⟨userEff false Eff.callUserKeyDown ++ [Eff.preventDefault],
        ⟨false, false⟩⟩ ∧
    clicksOf (runKeyDown { defaultConfig with clickOnEnter := false } divElement
        false (plainEvent "Enter") ⟨false, false⟩) = [] :=
  c8_disabled_interaction_prevents_without_click
    { defaultConfig with clickOnEnter := false } divElement false
    (plainEvent "Enter") ⟨false, false⟩ (by decide) (by decide) (by decide)
    (by decide) (by decide) (by decide) (Or.inl ⟨by decide, by decide⟩)

/-- C9: the returned props carry a `data-active` attribute that is the
value true exactly when the Active-State Flag is true and absent (never
false) otherwise, a `type` attribute equal to "button" exactly when the
element was confirmed a native button and absent otherwise, and
onKeyDown/onKeyUp handlers that invoke the user-supplied handlers
first. -/
theorem c9_returned_props_shape :
    (∀ a n : Bool,
      (commandProps a n).dataActive = (if a then some true else none) ∧
      ((commandProps a n).dataActive = some true ∨
        (commandProps a n).dataActive = none) ∧
      ((commandProps a n).dataActive = some true ↔ a = true) ∧
      (commandProps a n).type = (if n then some "button" else none) ∧
      ((commandProps a n).type = some "button" ↔ n = true)) ∧
    (∀ (cfg : CmdConfig) (element : DomElement) (event : KeyEvent)
        (s : CmdState),
      (runKeyDown cfg element true event s).actions.head? =
        some Eff.callUserKeyDown) ∧
    (∀ (cfg : CmdConfig) (element : DomElement) (event : KeyEvent)
        (s : CmdState),
      (runKeyUp cfg element true event s).actions.head? =
        some Eff.callUserKeyUp) := by
  refine ⟨?_, keydown_first_action_is_user, keyup_first_action_is_user⟩
  intro a n
  cases a <;> cases n <;> simp [commandProps]

/-- Witness for C9: the props at concrete flag values, and the
user-handler-first shape on a concrete keydown. -/
theorem c9_witness :
    (commandProps true false).dataActive = (if true then some true else none) ∧
    (commandProps false true).type =
      (if (true : Bool) then some "button" else none) ∧
    (runKeyDown defaultConfig divElement true (plainEvent "Enter")
      ⟨false, false⟩).actions.head? = some Eff.callUserKeyDown :=
  ⟨(c9_returned_props_shape.1 true false).1,
   (c9_returned_props_shape.1 false true).2.2.2.1,
   c9_returned_props_shape.2.1 defaultConfig divElement (plainEvent "Enter")
     ⟨false, false⟩⟩

/-- C10: when a Space keyup is vetoed (default already prevented, or meta
key held) while the Pending-Activation Marker and Active-State Flag are
set, both remain set and `data-active` stays present; a later unvetoed
non-native Space keyup alone — with no new keydown — clears the marker
and fires the one synthesized click. -/
theorem c10_vetoed_keyup_keeps_marker_and_flag :
    (∀ (cfg : CmdConfig) (element : DomElement) (hasUser : Bool)
        (event : KeyEvent) (s : CmdState) (n : Bool),
      s.activeRef = true → s.active = true →
      (event.defaultPrevented = true ∨ event.metaKey = true) →
      runKeyUp cfg element hasUser event s =
        ⟨userEff hasUser Eff.callUserKeyUp, s⟩ ∧
      (runKeyUp cfg element hasUser event s).state.activeRef = true ∧
      (runKeyUp cfg element hasUser event s).state.active = true ∧
      (commandProps (runKeyUp cfg element hasUser event s).state.active
        n).dataActive = some true) ∧
    (∀ (cfg : CmdConfig) (element : DomElement) (hasUser : Bool)
        (event : KeyEvent) (s : CmdState),
      s.activeRef = true → cfg.clickOnSpace = true → event.key = " " →
      isNativeClick element event = false →
      event.defaultPrevented = false → cfg.isDuplicate = false →
      cfg.disabled = false → event.metaKey = false →
      runKeyUp cfg element hasUser event s =
        ⟨userEff hasUser Eff.callUserKeyUp ++
          [Eff.preventDefault, Eff.setActive false,
           Eff.scheduleClick ScheduleKind.microtask (eventInitOf event)],
          ⟨false, false⟩⟩ ∧
      clicksOf (runKeyUp cfg element hasUser event s) =
        [(ScheduleKind.microtask, eventInitOf event)]) := by
  constructor
  · intro cfg element hasUser event s n href hact hveto
    have h := keyup_veto_no_action cfg element hasUser event s
      (hveto.elim (fun h => Or.inl h) (fun h => Or.inr (Or.inr (Or.inr h))))
    refine ⟨h, ?_, ?_, ?_⟩ <;> rw [h]
    · exact href
    · exact hact
    · simp [commandProps, hact]
  · intro cfg element hasUser event s href hspace hkey hnative hprev hdup
      hdis hmeta
    have h := keyup_space_fires cfg element hasUser event s href hspace hkey
      hnative hprev hdup hdis hmeta
    refine ⟨h, ?_⟩
    rw [clicksOf, h]
    cases hasUser <;> simp [userEff, Eff.clickOf]

/-- Witness for C10: a meta-held Space keyup preserves marker and flag on
a plain div; a later plain Space keyup fires the click. -/
theorem c10_witness :
    (runKeyUp defaultConfig divElement false
        { plainEvent " " with metaKey := true } ⟨true, true⟩ =
      ⟨userEff false Eff.callUserKeyUp, ⟨true, true⟩⟩ ∧
      (runKeyUp defaultConfig divElement false
        { plainEvent " " with metaKey := true } ⟨true, true⟩).state.activeRef
        = true ∧
      (runKeyUp defaultConfig divElement false
        { plainEvent " " with metaKey := true } ⟨true, true⟩).state.active
        = true ∧
      (commandProps (runKeyUp defaultConfig divElement false
          { plainEvent " " with metaKey := true } ⟨true, true⟩).state.active
        false).dataActive = some true) ∧
    (runKeyUp defaultConfig divElement false (plainEvent " ") ⟨true, true⟩ =
      ⟨userEff false Eff.callUserKeyUp ++
        [Eff.preventDefault, Eff.setActive false,
         Eff.scheduleClick ScheduleKind.microtask (eventInitOf (plainEvent " "))],
        ⟨false, false⟩⟩ ∧
      clicksOf (runKeyUp defaultConfig divElement false (plainEvent " ")
          ⟨true, true⟩) =
        [(ScheduleKind.microtask, eventInitOf (plainEvent " "))]) :=
  ⟨c10_vetoed_keyup_keeps_marker_and_flag.1 defaultConfig divElement false
      { plainEvent " " with metaKey := true } ⟨true, true⟩ false (by decide)
      (by decide) (Or.inr (by decide)),
   c10_vetoed_keyup_keeps_marker_and_flag.2 defaultConfig divElement false
      (plainEvent " ") ⟨true, true⟩ (by decide) (by decide) (by decide)
      (by decide) (by decide) (by decide) (by decide) (by decide)⟩
